import Mathlib

/-!
Shallow embedding of the join-and-aggregation pipeline of
`src_python/process_data.py` (IFRC PER data fetcher), together with proofs
of the frozen claims about it.

Modelling conventions:
* Python JSON dictionaries become Lean structures.  A field that the code
  reads only through `d.get(k)` (no default) or through truthiness tests is
  modelled as `Option`, with `none` standing for both an absent key and an
  explicit `null` (the code cannot tell them apart through those accesses).
* A field that the code reads through `d.get(k, default)` with a non-`None`
  default is modelled as `JField`, which keeps the three Python cases
  (key absent / key bound to `null` / key bound to a value) distinct,
  because `dict.get` only substitutes the default for an absent key.
* Python strings are Lean `String`s; text that is compared or ordered is
  handled through `String.data : List Char`, matching Python's
  code-point-wise comparisons.
* JSON numeric payloads that the pipeline only copies (ids, ratings,
  coordinates) are modelled as `Int`; no arithmetic is performed on them.
* Code that can raise a Python exception is modelled in `Except String`.
-/

deriving instance DecidableEq for Except

/-- Three-state model of one key of a Python dictionary: the key may be
absent, bound to `None`, or bound to a value. -/
inductive JField (α : Type) where
  | absent
  | nullv
  | val (a : α)
deriving DecidableEq

/-- Python `d.get(k)`: an absent key and a `null` value both read as `None`. -/
def JField.getOpt : JField α → Option α
  | .absent => none
  | .nullv => none
  | .val a => some a

/-- Python `d.get(k, default)`: the default replaces an absent key only; a key
bound to `null` still reads as `None`. -/
def JField.getD (d : α) : JField α → Option α
  | .absent => some d
  | .nullv => none
  | .val a => some a

/-- Python `a or b` for string-valued expressions: `a` wins unless it is
`None` or the empty string (both falsy). -/
def pyOrStr (a b : Option String) : Option String :=
  match a with
  | some s => if s = "" then b else some s
  | none => b

/-- Python `a or b` for integer-valued expressions: `a` wins unless it is
`None` or `0` (both falsy). -/
def pyOrInt (a b : Option Int) : Option Int :=
  match a with
  | some n => if n = 0 then b else some n
  | none => b

/-- Check whether `needle` occurs at the head of `hay`. -/
def startsWithChars : List Char → List Char → Bool
  | [], _ => true
  | _ :: _, [] => false
  | a :: as, b :: bs => a = b && startsWithChars as bs

/-- Python `needle in hay` on strings: substring containment. -/
def containsChars (needle : List Char) : List Char → Bool
  | [] => needle.isEmpty
  | c :: rest => startsWithChars needle (c :: rest) || containsChars needle rest

/-- Python `str.lower`, restricted to the Latin repertoire this pipeline's
data uses (ASCII plus the accented letters that appear in the affirmative
words and their inputs). -/
def pyLower (c : Char) : Char :=
  if 'A' ≤ c ∧ c ≤ 'Z' then Char.ofNat (c.toNat + 32)
  else if c = 'Á' then 'á'
  else if c = 'É' then 'é'
  else if c = 'Í' then 'í'
  else if c = 'Ó' then 'ó'
  else if c = 'Ú' then 'ú'
  else if c = 'Ü' then 'ü'
  else if c = 'Ñ' then 'ñ'
  else c

/-- Combining acute accent, U+0301. -/
def combiningAcute : Char := Char.ofNat 0x301

/-- Combining diaeresis, U+0308. -/
def combiningDiaeresis : Char := Char.ofNat 0x308

/-- Combining tilde, U+0303. -/
def combiningTilde : Char := Char.ofNat 0x303

/-- Unicode NFD decomposition (`unicodedata.normalize('NFD', ...)`),
restricted to the lower-case Latin letters this pipeline's data uses;
ASCII characters are NFD-invariant. -/
def nfdChar (c : Char) : List Char :=
  if c = 'á' then ['a', combiningAcute]
  else if c = 'é' then ['e', combiningAcute]
  else if c = 'í' then ['i', combiningAcute]
  else if c = 'ó' then ['o', combiningAcute]
  else if c = 'ú' then ['u', combiningAcute]
  else if c = 'ü' then ['u', combiningDiaeresis]
  else if c = 'ñ' then ['n', combiningTilde]
  else [c]

/-- Unicode category Mn test (`unicodedata.category(char) == 'Mn'`),
restricted to the combining-diacritics block U+0300..U+036F, which covers
every mark `nfdChar` can produce. -/
def isCombiningMark (c : Char) : Bool :=
  0x300 ≤ c.toNat && c.toNat ≤ 0x36F

/-- Affirmative search set of `contains_affirmative_word`. -/
def affirmative_words : List String := ["yes", "sí", "si"]

/-- Embedding of `contains_affirmative_word` (process_data.py lines 18-43):
`None`, non-string (folded into `none` here) and empty input give `false`;
otherwise the text is lower-cased, NFD-decomposed, stripped of nonspacing
marks, and searched for any of the affirmative words as a substring. -/
def contains_affirmative_word (text : Option String) : Bool :=
  match text with
  | none => false
  | some t =>
    if t.data = [] then false
    else
      let lowered := t.data.map pyLower
      let decomposed := lowered.flatMap nfdChar
      let normalized := decomposed.filter (fun c => !isCombiningMark c)
      affirmative_words.any (fun w => containsChars w.data normalized)

/-- Raw `rating_details` object of a component response.  `value` and
`title` are read with defaults by the dashboard flattener, hence `JField`. -/
structure RatingDetails where
  id : Option Int
  value : JField Int
  title : JField String
deriving DecidableEq

/-- Raw `component_details` object of an assessment component response.
`title` is read with a default by the dashboard flattener, hence `JField`. -/
structure ComponentDetailsRec where
  id : Option Int
  component_num : Option Int
  area : Option Int
  title : JField String
  description : Option String
deriving DecidableEq

/-- Raw component response of an assessment area response. -/
structure ComponentResponse where
  id : Int
  component : Option Int
  rating : Option Int
  rating_details : Option RatingDetails
  component_details : Option ComponentDetailsRec
  urban_considerations : Option String
  epi_considerations : Option String
  climate_environmental_considerations : Option String
  migration_considerations : Option String
  notes : Option String
deriving DecidableEq

/-- Raw area response of an assessment record. -/
structure AreaResponse where
  id : Int
  component_responses : List ComponentResponse
deriving DecidableEq

/-- Raw assessment record (`per-assessments.json` entry).  An absent
`area_responses` key defaults to `[]` in the code, so it is a plain list. -/
structure AssessmentRecord where
  id : Int
  area_responses : List AreaResponse
deriving DecidableEq

/-- Simplified rating object produced by the normalizer. -/
structure SimplifiedRating where
  id : Option Int
  value : Option Int
  title : Option String
deriving DecidableEq

/-- Simplified component-details object produced by the normalizer. -/
structure SimplifiedComponentDetails where
  id : Option Int
  component_num : Option Int
  area : Option Int
  title : Option String
  description : Option String
deriving DecidableEq

/-- Normalized component response (process_data.py lines 216-231). -/
structure ProcessedComponent where
  id : Int
  component : Option Int
  rating : Option Int
  rating_details : SimplifiedRating
  component_details : SimplifiedComponentDetails
  urban_considerations : Option String
  epi_considerations : Option String
  climate_environmental_considerations : Option String
  migration_considerations : Option String
  urban_considerations_simplified : Bool
  epi_considerations_simplified : Bool
  climate_environmental_considerations_simplified : Bool
  migration_considerations_simplified : Bool
  notes : Option String
deriving DecidableEq

/-- Normalized area response. -/
structure ProcessedArea where
  id : Int
  component_responses : List ProcessedComponent
deriving DecidableEq

/-- Normalized assessment. -/
structure ProcessedAssessment where
  id : Int
  area_responses : List ProcessedArea
deriving DecidableEq

/-- Helper reading a `JField` of an optional raw object: when the object
itself is absent, `null`, or `{}` (the code coalesces all three with
`or {}`), every key of it reads as absent. -/
def subField (o : Option β) (f : β → JField α) : JField α :=
  match o with
  | some b => f b
  | none => .absent

/-- Helper reading an `Option` key of an optional raw object, as above. -/
def subOpt (o : Option β) (f : β → Option α) : Option α :=
  match o with
  | some b => f b
  | none => none

/-- Embedding of the per-component body of the normalizer loop
(process_data.py lines 186-231). -/
def process_component (cr : ComponentResponse) : ProcessedComponent :=
  let component_details := cr.component_details
  let rating_details := cr.rating_details
  { id := cr.id
    component := cr.component
    rating := cr.rating
    rating_details :=
      { id := subOpt rating_details RatingDetails.id
        value := (subField rating_details RatingDetails.value).getOpt
        title := (subField rating_details RatingDetails.title).getOpt }
    component_details :=
      { id := subOpt component_details ComponentDetailsRec.id
        component_num := subOpt component_details ComponentDetailsRec.component_num
        area := subOpt component_details ComponentDetailsRec.area
        title := (subField component_details ComponentDetailsRec.title).getOpt
        description := subOpt component_details ComponentDetailsRec.description }
    urban_considerations := cr.urban_considerations
    epi_considerations := cr.epi_considerations
    climate_environmental_considerations := cr.climate_environmental_considerations
    migration_considerations := cr.migration_considerations
    urban_considerations_simplified := contains_affirmative_word cr.urban_considerations
    epi_considerations_simplified := contains_affirmative_word cr.epi_considerations
    climate_environmental_considerations_simplified :=
      contains_affirmative_word cr.climate_environmental_considerations
    migration_considerations_simplified := contains_affirmative_word cr.migration_considerations
    notes := cr.notes }

/-- Embedding of the per-area body of the normalizer loop
(process_data.py lines 180-235). -/
def process_area (ar : AreaResponse) : ProcessedArea :=
  { id := ar.id
    component_responses := ar.component_responses.map process_component }

/-- Embedding of the assessment normalizer (process_data.py lines 173-237):
one processed assessment per raw assessment, mapping over areas and
components. -/
def process_assessment (a : AssessmentRecord) : ProcessedAssessment :=
  { id := a.id
    area_responses := a.area_responses.map process_area }

/-- Aggregated boolean consideration flags of one assessment. -/
structure Considerations where
  epi_considerations : Bool
  climate_environmental_considerations : Bool
  urban_considerations : Bool
  migration_considerations : Bool
deriving DecidableEq

/-- Embedding of the considerations aggregation (process_data.py lines
265-289): a flag is true when any component response of any area of the
processed assessment has the corresponding simplified flag true. -/
def considerations_of (a : ProcessedAssessment) : Considerations :=
  { epi_considerations := a.area_responses.any
      (fun ar => ar.component_responses.any ProcessedComponent.epi_considerations_simplified)
    climate_environmental_considerations := a.area_responses.any
      (fun ar => ar.component_responses.any
        ProcessedComponent.climate_environmental_considerations_simplified)
    urban_considerations := a.area_responses.any
      (fun ar => ar.component_responses.any ProcessedComponent.urban_considerations_simplified)
    migration_considerations := a.area_responses.any
      (fun ar => ar.component_responses.any ProcessedComponent.migration_considerations_simplified) }

/-- Lookup `assessment_considerations_map.get(key, all-false)` built from the
processed assessments (a Python dict keyed by assessment id, last write
wins), queried with the possibly absent `assessment` foreign key. -/
def lookup_considerations (assessments : List ProcessedAssessment) (key : Option Int) :
    Considerations :=
  match (assessments.reverse.find? (fun a => key = some a.id)) with
  | some a => considerations_of a
  | none =>
    { epi_considerations := false
      climate_environmental_considerations := false
      urban_considerations := false
      migration_considerations := false }

/-- Static `area_names` table (process_data.py lines 164-170), read through
`area_names.get(area_id, '')`. -/
def area_names (a : Option Int) : String :=
  match a with
  | some 1 => "Policy Strategy and Standards"
  | some 2 => "Analysis and planning"
  | some 3 => "Operational capacity"
  | some 4 => "Coordination"
  | some 5 => "Operations support"
  | _ => ""

/-- Static `region_id_to_name_map` table (process_data.py lines 154-161),
read through `region_id_to_name_map.get(region_id)`. -/
def region_id_to_name_map (r : Option Int) : Option String :=
  match r with
  | some 0 => some "Africa"
  | some 1 => some "Americas"
  | some 2 => some "Asia Pacific"
  | some 3 => some "Europe"
  | some 4 => some "MENA"
  | _ => none

/-- Flat dashboard component summary (process_data.py lines 249-257). -/
structure DashComponent where
  component_id : Option Int
  component_name : Option String
  component_num : Option Int
  area_id : Option Int
  area_name : String
  rating_value : Option Int
  rating_title : Option String
deriving DecidableEq

/-- Dashboard projection of one assessment (process_data.py lines 259-262). -/
structure DashboardAssessment where
  assessment_id : Int
  components : List DashComponent
deriving DecidableEq

/-- Embedding of the dashboard flattener body (process_data.py lines
241-262): one flat component summary per component response, across all
area responses, in order. -/
def dashboard_of (assessment : AssessmentRecord) : DashboardAssessment :=
  { assessment_id := assessment.id
    components := assessment.area_responses.flatMap (fun area_response =>
      area_response.component_responses.map (fun component_response =>
        let component_details := component_response.component_details
        let rating_details := component_response.rating_details
        { component_id := component_response.component
          component_name := (subField component_details ComponentDetailsRec.title).getD ""
          component_num := subOpt component_details ComponentDetailsRec.component_num
          area_id := subOpt component_details ComponentDetailsRec.area
          area_name := area_names (subOpt component_details ComponentDetailsRec.area)
          rating_value := (subField rating_details RatingDetails.value).getD 0
          rating_title := (subField rating_details RatingDetails.title).getD "" })) }

/-- Model of a geojson-like centroid dictionary.  `emptyDict` is the falsy
`{}`; `obj` is a non-empty dictionary whose `coordinates` key may be
absent (the dictionary then holds other keys only), bound to `null`, or
bound to a list of numbers-or-nulls. -/
inductive CentroidDict where
  | emptyDict
  | obj (coordinates : JField (List (Option Int)))
deriving DecidableEq

/-- Raw country record (`countries.json` entry).  `iso3` is the lookup key
and always a string; the remaining fields may be missing. -/
structure CountryRecord where
  iso3 : String
  centroid : Option CentroidDict
  region : Option Int
  name : Option String
deriving DecidableEq

/-- Value shape of the country lookup (process_data.py lines 117-125), with
`{}` (the miss default) represented by `emptyCountryVal` below. -/
structure CountryVal where
  centroid : Option CentroidDict
  iso3 : Option String
  region : Option Int
  name : Option String
deriving DecidableEq

/-- Country-lookup miss default `{}`: every key reads as `None`. -/
def emptyCountryVal : CountryVal :=
  { centroid := none, iso3 := none, region := none, name := none }

/-- Embedding of `country_map.get(country_iso3, {})`: the dict is keyed by
`iso3` with last write winning on duplicates, and a `None` key misses. -/
def lookup_country (countries : List CountryRecord) (iso3 : Option String) : CountryVal :=
  match (countries.reverse.find? (fun c => iso3 = some c.iso3)) with
  | some c =>
    { centroid := c.centroid, iso3 := some c.iso3, region := c.region, name := c.name }
  | none => emptyCountryVal

/-- Raw per-overview record: `id` equals a status id, plus the four
country-level assessment flags (each possibly absent or `null`). -/
structure OverviewRecord where
  id : Int
  assess_preparedness_of_country : Option Bool
  assess_urban_aspect_of_country : Option Bool
  assess_climate_environment_of_country : Option Bool
  assess_migration_aspect_of_country : Option Bool
deriving DecidableEq

/-- Value shape of the overview lookup (process_data.py lines 106-114). -/
structure OverviewVal where
  assess_preparedness_of_country : Option Bool
  assess_urban_aspect_of_country : Option Bool
  assess_climate_environment_of_country : Option Bool
  assess_migration_aspect_of_country : Option Bool
deriving DecidableEq

/-- Embedding of `overview_map.get(status_id, all-None)` (process_data.py
lines 106-114 and 321-326): keyed by overview id, last write wins, with an
all-`None` default on a miss. -/
def lookup_overview (overviews : List OverviewRecord) (status_id : Int) : OverviewVal :=
  match (overviews.reverse.find? (fun o => o.id = status_id)) with
  | some o =>
    { assess_preparedness_of_country := o.assess_preparedness_of_country
      assess_urban_aspect_of_country := o.assess_urban_aspect_of_country
      assess_climate_environment_of_country := o.assess_climate_environment_of_country
      assess_migration_aspect_of_country := o.assess_migration_aspect_of_country }
  | none =>
    { assess_preparedness_of_country := none
      assess_urban_aspect_of_country := none
      assess_climate_environment_of_country := none
      assess_migration_aspect_of_country := none }

/-- Area object inside a prioritization component-details object. -/
structure PrioArea where
  id : Option Int
  title : Option String
deriving DecidableEq

/-- Component-details object of a prioritized action response. -/
structure PrioComponentDetails where
  id : Option Int
  title : Option String
  area : Option PrioArea
  description : Option String
deriving DecidableEq

/-- Prioritized action response of a prioritization record. -/
structure PrioritizedActionResponse where
  component : Option Int
  component_details : Option PrioComponentDetails
deriving DecidableEq

/-- Raw prioritization record, keyed by its `overview` field (a status id). -/
structure PrioritizationRecord where
  overview : Option Int
  prioritized_action_responses : List PrioritizedActionResponse
deriving DecidableEq

/-- Simplified prioritization component (process_data.py lines 147-151). -/
structure PrioComponent where
  componentId : Option Int
  componentTitle : Option String
  areaTitle : Option String
deriving DecidableEq

/-- Components list built for one prioritization record (process_data.py
lines 144-151). -/
def prio_components (item : PrioritizationRecord) : List PrioComponent :=
  item.prioritized_action_responses.map (fun response =>
    let component_details := response.component_details
    { componentId := response.component
      componentTitle := subOpt component_details PrioComponentDetails.title
      areaTitle := subOpt component_details
        (fun cd => subOpt cd.area PrioArea.title) })

/-- Embedding of `prioritization_map.get(status_id, empty)` (process_data.py
lines 141-152 and 299): keyed by the `overview` field, last write wins,
defaulting to an empty components list on a miss. -/
def lookup_prioritization (prios : List PrioritizationRecord) (status_id : Int) :
    List PrioComponent :=
  match (prios.reverse.find? (fun item => item.overview = some status_id)) with
  | some item => prio_components item
  | none => []

/-- Inline `country_details` object of a status record.  The code reads
only `iso3`, `name` and `region` from it; a `None` or `{}` value behaves
exactly like an absent one through the guarded reads, so all three collapse
into `none`. -/
structure CountryDetails where
  iso3 : Option String
  name : Option String
  region : Option Int
deriving DecidableEq

/-- Inline `type_of_assessment_details` object of a status record. -/
structure TypeOfAssessmentDetails where
  name : Option String
deriving DecidableEq

/-- Raw status record (`per-status.json` entry).  `phase_display` is read
through `status.get('phase_display', '')`, hence `JField`. -/
structure StatusRecord where
  id : Int
  assessment : Option Int
  assessment_number : Option Int
  date_of_assessment : Option String
  country : Option Int
  country_details : Option CountryDetails
  phase : Option Int
  phase_display : JField String
  type_of_assessment : Option Int
  type_of_assessment_details : Option TypeOfAssessmentDetails
  updated_at : Option String
deriving DecidableEq

/-- Joined record (process_data.py lines 338-366). -/
structure JoinedRecord where
  id : Int
  assessment_number : Option Int
  date_of_assessment : Option String
  country_id : Option Int
  country_name : Option String
  phase : Option Int
  phase_display : Option String
  type_of_assessment : Option Int
  type_of_assessment_name : Option String
  country_iso3 : Option String
  region_id : Option Int
  region_name : Option String
  latitude : Option Int
  longitude : Option Int
  updated_at : Option String
  prioritized_components : List PrioComponent
  epi_considerations : Bool
  climate_environmental_considerations : Bool
  urban_considerations : Bool
  migration_considerations : Bool
  assess_preparedness_of_country : Option Bool
  assess_urban_aspect_of_country : Option Bool
  assess_climate_environment_of_country : Option Bool
  assess_migration_aspect_of_country : Option Bool
  components : List DashComponent
deriving DecidableEq

/-- Embedding of the centroid splitting (process_data.py lines 334-336 and
351-352).  `cf` is `country_data.get('centroid')`; `or {}` replaces a falsy
value by `{}`; `.get('coordinates', [None, None])` keeps a `null`
coordinates value, on which `len(...)` then raises a `TypeError`. -/
def split_centroid (cf : Option CentroidDict) : Except String (Option Int × Option Int) :=
  let centroid : CentroidDict :=
    match cf with
    | some pc => pc
    | none => .emptyDict
  match centroid with
  | .emptyDict => Except.ok (none, none)
  | .obj coordinatesField =>
    match coordinatesField with
    | .absent => Except.ok (none, none)
    | .nullv => Except.error "TypeError: object of type NoneType has no len"
    | .val coordinates =>
      Except.ok
        ((if h : 1 < coordinates.length then coordinates.get ⟨1, h⟩ else none),
         (if h : 0 < coordinates.length then coordinates.get ⟨0, h⟩ else none))

/-- Embedding of the phase-display remap (process_data.py lines 328-332). -/
def remap_phase_display (pd : JField String) : Option String :=
  match pd.getD "" with
  | some s =>
    if s = "Action And Accountability" then some "Action & accountability"
    else if s = "WorkPlan" then some "Workplan"
    else some s
  | none => none

/-- Country lookup key of a status record: `country_details.get('iso3')`
guarded by the truthiness of `country_details` (process_data.py line 295). -/
def status_iso3 (status : StatusRecord) : Option String :=
  subOpt status.country_details CountryDetails.iso3

/-- Total part of one status-joiner iteration (process_data.py lines
293-366), given the already split latitude/longitude pair. -/
def join_record (countries : List CountryRecord) (prios : List PrioritizationRecord)
    (dashboards : List DashboardAssessment) (assessments : List ProcessedAssessment)
    (overviews : List OverviewRecord) (status : StatusRecord)
    (latlong : Option Int × Option Int) : JoinedRecord :=
  let country_details := status.country_details
  let country_data : CountryVal := lookup_country countries (status_iso3 status)
  let region_id : Option Int :=
    pyOrInt country_data.region (subOpt country_details CountryDetails.region)
  let prioritized : List PrioComponent := lookup_prioritization prios status.id
  let dash_components : List DashComponent :=
    match (dashboards.find? (fun da => status.assessment = some da.assessment_id)) with
    | some da => da.components
    | none => []
  let considerations : Considerations := lookup_considerations assessments status.assessment
  let overview : OverviewVal := lookup_overview overviews status.id
  let phase_display : Option String := remap_phase_display status.phase_display
  { id := status.id
    assessment_number := status.assessment_number
    date_of_assessment := status.date_of_assessment
    country_id := status.country
    country_name := pyOrStr (subOpt country_details CountryDetails.name) country_data.name
    phase := status.phase
    phase_display := phase_display
    type_of_assessment := status.type_of_assessment
    type_of_assessment_name :=
      subOpt status.type_of_assessment_details TypeOfAssessmentDetails.name
    country_iso3 := pyOrStr (subOpt country_details CountryDetails.iso3) country_data.iso3
    region_id := region_id
    region_name := region_id_to_name_map region_id
    latitude := latlong.1
    longitude := latlong.2
    updated_at := status.updated_at
    prioritized_components := prioritized
    epi_considerations := considerations.epi_considerations
    climate_environmental_considerations :=
      considerations.climate_environmental_considerations
    urban_considerations := considerations.urban_considerations
    migration_considerations := considerations.migration_considerations
    assess_preparedness_of_country := overview.assess_preparedness_of_country
    assess_urban_aspect_of_country := overview.assess_urban_aspect_of_country
    assess_climate_environment_of_country := overview.assess_climate_environment_of_country
    assess_migration_aspect_of_country := overview.assess_migration_aspect_of_country
    components := dash_components }

/-- Embedding of one iteration of the status-joiner loop (process_data.py
lines 293-367): the centroid split is the only step of the iteration that
can raise, and its exception aborts the iteration. -/
def join_status (countries : List CountryRecord) (prios : List PrioritizationRecord)
    (dashboards : List DashboardAssessment) (assessments : List ProcessedAssessment)
    (overviews : List OverviewRecord) (status : StatusRecord) :
    Except String JoinedRecord :=
  match split_centroid (lookup_country countries (status_iso3 status)).centroid with
  | Except.error e => Except.error e
  | Except.ok latlong =>
    Except.ok (join_record countries prios dashboards assessments overviews status latlong)

/-- Embedding of the status-joiner loop (process_data.py lines 292-367):
one joined record appended per status record, in input order; an exception
in any iteration aborts the whole loop. -/
def join_all (countries : List CountryRecord) (prios : List PrioritizationRecord)
    (dashboards : List DashboardAssessment) (assessments : List ProcessedAssessment)
    (overviews : List OverviewRecord) : List StatusRecord → Except String (List JoinedRecord)
  | [] => Except.ok []
  | status :: rest =>
    match join_status countries prios dashboards assessments overviews status with
    | Except.error e => Except.error e
    | Except.ok r =>
      match join_all countries prios dashboards assessments overviews rest with
      | Except.error e => Except.error e
      | Except.ok rs => Except.ok (r :: rs)

/-- Assessment summary stored inside a grouped-by-component bucket
(process_data.py lines 377-387 and 422-432). -/
structure BucketSummary where
  assessment_id : Int
  assessment_number : Option Int
  country_id : Option Int
  country_name : Option String
  region_id : Option Int
  region_name : Option String
  date_of_assessment : Option String
  rating_value : Option Int
  rating_title : Option String
deriving DecidableEq

/-- Grouped-by-component bucket (process_data.py lines 391-398, 412-419). -/
structure Bucket where
  component_id : Option Int
  component_num : Option Int
  component_name : Option String
  area_id : Option Int
  area_name : String
  assessments : List BucketSummary
deriving DecidableEq

/-- Empty assessment summary contributed by a joined record with no
dashboard components (process_data.py lines 377-387). -/
def empty_summary (r : JoinedRecord) : BucketSummary :=
  { assessment_id := r.id
    assessment_number := r.assessment_number
    country_id := r.country_id
    country_name := r.country_name
    region_id := r.region_id
    region_name := r.region_name
    date_of_assessment := r.date_of_assessment
    rating_value := none
    rating_title := some "" }

/-- Assessment summary contributed by one dashboard component of a joined
record (process_data.py lines 422-432). -/
def component_summary (r : JoinedRecord) (c : DashComponent) : BucketSummary :=
  { assessment_id := r.id
    assessment_number := r.assessment_number
    country_id := r.country_id
    country_name := r.country_name
    region_id := r.region_id
    region_name := r.region_name
    date_of_assessment := r.date_of_assessment
    rating_value := c.rating_value
    rating_title := c.rating_title }

/-- Synthetic no-component bucket created when a component-less joined
record arrives while `grouped` is still empty (process_data.py lines
390-398). -/
def synthetic_bucket (r : JoinedRecord) : Bucket :=
  { component_id := none
    component_num := none
    component_name := some ""
    area_id := none
    area_name := ""
    assessments := [empty_summary r] }

/-- Embedding of the per-component grouping step (process_data.py lines
403-432): append the summary to the first bucket whose `component_id`
equals the component's (Python `==`, with `None` equal to `None`); when no
bucket matches, append a new bucket at the end of `grouped`. -/
def add_component_summary (c : DashComponent) (s : BucketSummary) :
    List Bucket → List Bucket
  | [] =>
    [{ component_id := c.component_id
       component_num := c.component_num
       component_name := c.component_name
       area_id := c.area_id
       area_name := c.area_name
       assessments := [s] }]
  | b :: bs =>
    if b.component_id = c.component_id then
      { b with assessments := b.assessments ++ [s] } :: bs
    else
      b :: add_component_summary c s bs

/-- Embedding of one iteration of the grouping loop (process_data.py lines
371-432): a component-less record contributes one empty summary to the
first bucket (or to a fresh synthetic bucket when none exists), then each
component contributes one summary via `add_component_summary`. -/
def group_step (grouped : List Bucket) (r : JoinedRecord) : List Bucket :=
  let components := r.components
  let grouped1 :=
    if components.isEmpty then
      match grouped with
      | [] => [synthetic_bucket r]
      | b :: bs => { b with assessments := b.assessments ++ [empty_summary r] } :: bs
    else grouped
  components.foldl (fun g c => add_component_summary c (component_summary r c) g) grouped1

/-- Embedding of the grouping loop over all joined records (process_data.py
lines 370-432). -/
def group_by_component (records : List JoinedRecord) : List Bucket :=
  records.foldl group_step []

/-- Per-country history summary (process_data.py lines 440-447).  Joined
records carry no `area_ratings` key, so `data.get('area_ratings')` always
reads `None`. -/
structure HistorySummary where
  assessment_number : Option Int
  date : Option String
  area_ratings : Option Unit
  components : List DashComponent
  phase : Option Int
  phase_display : Option String
deriving DecidableEq

/-- History summary of one joined record (process_data.py lines 440-447). -/
def history_summary (r : JoinedRecord) : HistorySummary :=
  { assessment_number := r.assessment_number
    date := r.date_of_assessment
    area_ratings := none
    components := r.components
    phase := r.phase
    phase_display := r.phase_display }

/-- Embedding of the `country_assessments` dictionary update (process_data.py
lines 436-447): append the summary to the entry of this country name,
creating the entry at the end on first encounter.  Python dictionaries keep
insertion order, so an association list is a faithful model. -/
def history_add (key : Option String) (s : HistorySummary) :
    List (Option String × List HistorySummary) → List (Option String × List HistorySummary)
  | [] => [(key, [s])]
  | (k, l) :: rest =>
    if k = key then (k, l ++ [s]) :: rest
    else (k, l) :: history_add key s rest

/-- Country grouping before the per-country sort (process_data.py lines
435-447). -/
def country_groups (records : List JoinedRecord) :
    List (Option String × List HistorySummary) :=
  records.foldl (fun acc r => history_add r.country_name (history_summary r) acc) []

/-- Sort key of the per-country sort (process_data.py line 451):
`a['date'] if a['date'] else ''`, compared as Python compares strings,
code point by code point. -/
def date_key (s : HistorySummary) : List Char :=
  match s.date with
  | some d => if d = "" then [] else d.data
  | none => []

/-- Strict comparison used by the stable sort below. -/
def date_lt (a b : HistorySummary) : Bool :=
  decide (date_key a < date_key b)

/-- Insert `x` into `l` before the first element that is not strictly below
`x`; elements equal to `x` therefore stay behind `x` only when they were
inserted earlier, which is what a stable sort does. -/
def insert_sorted (x : HistorySummary) : List HistorySummary → List HistorySummary
  | [] => [x]
  | y :: ys => if date_lt y x then y :: insert_sorted x ys else x :: y :: ys

/-- Model of Python `list.sort(key=...)` (process_data.py lines 449-452):
`list.sort` is specified as a stable sort; this stable insertion sort is
observationally the same function. -/
def stable_sort_by_date : List HistorySummary → List HistorySummary
  | [] => []
  | x :: xs => insert_sorted x (stable_sort_by_date xs)

/-- Embedding of the country-history output (process_data.py lines 435-452):
the grouped summaries of each country, sorted by date with `None` read as
the empty string. -/
def country_history (records : List JoinedRecord) :
    List (Option String × List HistorySummary) :=
  (country_groups records).map (fun p => (p.1, stable_sort_by_date p.2))

/-- Inversion of a successful joiner iteration: the centroid split succeeded
and the record is the total `join_record` of its pair. -/
theorem join_status_ok {countries : List CountryRecord} {prios : List PrioritizationRecord}
    {dashboards : List DashboardAssessment} {assessments : List ProcessedAssessment}
    {overviews : List OverviewRecord} {status : StatusRecord} {r : JoinedRecord}
    (h : join_status countries prios dashboards assessments overviews status = Except.ok r) :
    ∃ latlong,
      split_centroid (lookup_country countries (status_iso3 status)).centroid
        = Except.ok latlong ∧
      r = join_record countries prios dashboards assessments overviews status latlong := by
  unfold join_status at h
  cases hsc : split_centroid (lookup_country countries (status_iso3 status)).centroid with
  | error e => rw [hsc] at h; cases h
  | ok latlong => rw [hsc] at h; cases h; exact ⟨latlong, rfl, rfl⟩

/-- C1: whenever the joiner loop completes, it emits exactly one joined
record per status record, in input order (equal lengths and the id sequence
of the output is the id sequence of the input); no status is filtered out. -/
theorem C1_join_no_filtering (countries : List CountryRecord)
    (prios : List PrioritizationRecord) (dashboards : List DashboardAssessment)
    (assessments : List ProcessedAssessment) (overviews : List OverviewRecord)
    (statuses : List StatusRecord) (joined : List JoinedRecord)
    (h : join_all countries prios dashboards assessments overviews statuses
      = Except.ok joined) :
    joined.length = statuses.length ∧
    joined.map JoinedRecord.id = statuses.map StatusRecord.id := by
  induction statuses generalizing joined with
  | nil =>
    unfold join_all at h
    cases h
    exact ⟨rfl, rfl⟩
  | cons st rest ih =>
    unfold join_all at h
    cases hj : join_status countries prios dashboards assessments overviews st with
    | error e => rw [hj] at h; cases h
    | ok r =>
      rw [hj] at h
      cases hr : join_all countries prios dashboards assessments overviews rest with
      | error e => rw [hr] at h; cases h
      | ok rs =>
        rw [hr] at h
        cases h
        obtain ⟨h1, h2⟩ := ih rs hr
        have hid : r.id = st.id := by
          obtain ⟨ll, _, hrec⟩ := join_status_ok hj
          rw [hrec]
          rfl
        exact ⟨by simp [h1], by simp [h2, hid]⟩

/-- Status record with every optional field absent, used as a concrete
joiner input. -/
def statusBare : StatusRecord :=
  { id := 1
    assessment := none
    assessment_number := none
    date_of_assessment := none
    country := none
    country_details := none
    phase := none
    phase_display := .absent
    type_of_assessment := none
    type_of_assessment_details := none
    updated_at := none }

/-- Witness for C1: the joiner on one bare status record with empty lookup
collections emits exactly one record with the same id. -/
theorem C1_join_no_filtering_witness :
    ((join_all [] [] [] [] [] [statusBare]).toOption.getD []).length = [statusBare].length ∧
    ((join_all [] [] [] [] [] [statusBare]).toOption.getD []).map JoinedRecord.id
      = [statusBare].map StatusRecord.id :=
  C1_join_no_filtering [] [] [] [] [] [statusBare]
    ((join_all [] [] [] [] [] [statusBare]).toOption.getD []) rfl

/-- C2 counterexample: the text classifier does fire on the input
`"business"`, because `"si"` occurs in it as a substring, so the claim that
`contains_affirmative_word "business"` is false fails on the code. -/
theorem C2_counterexample_business :
    ¬ contains_affirmative_word (some "business") = false := by decide

/-- C2 amended: for the input string `"business"`, `contains_affirmative_word`
returns true — the affirmative matching is plain substring containment and
fires on the embedded `"si"`. -/
theorem C2_amended_business_true :
    contains_affirmative_word (some "business") = true := by decide

/-- C3: the assessment normalizer keeps the assessment id, and preserves the
area responses and their component responses exactly — same counts, same
ids, same order, nothing dropped or reordered. -/
theorem C3_normalizer_preserves_structure (a : AssessmentRecord) :
    (process_assessment a).id = a.id ∧
    (process_assessment a).area_responses.length = a.area_responses.length ∧
    (process_assessment a).area_responses.map ProcessedArea.id
      = a.area_responses.map AreaResponse.id ∧
    (process_assessment a).area_responses.map
        (fun ar => ar.component_responses.map ProcessedComponent.id)
      = a.area_responses.map
        (fun ar => ar.component_responses.map ComponentResponse.id) := by
  refine ⟨rfl, ?_, ?_, ?_⟩ <;>
    simp [process_assessment, process_area, process_component, List.map_map, Function.comp]

/-- Country record whose centroid dictionary carries an explicit null
coordinates value, the malformed-centroid case named by C6. -/
def countryNullCoordinates : CountryRecord :=
  { iso3 := "KEN"
    centroid := some (.obj .nullv)
    region := some 0
    name := some "Kenya" }

/-- Status record pointing at `countryNullCoordinates` through its inline
iso3. -/
def statusKEN : StatusRecord :=
  { id := 1
    assessment := none
    assessment_number := none
    date_of_assessment := none
    country := some 100
    country_details := some { iso3 := some "KEN", name := none, region := none }
    phase := none
    phase_display := .absent
    type_of_assessment := none
    type_of_assessment_details := none
    updated_at := none }

/-- C6 failing input: on a resolved centroid dictionary whose coordinates
key is bound to null, the joiner iteration raises the modelled TypeError
(`len(None)` in `coordinates[1] if len(coordinates) > 1 else None`) instead
of emitting a record with null latitude and longitude. -/
theorem C6_code_bug_null_coordinates :
    join_status [countryNullCoordinates] [] [] [] [] statusKEN
      = Except.error "TypeError: object of type NoneType has no len" := by decide

/-- Python truthy `or` on strings keeps a non-empty left value. -/
theorem pyOrStr_truthy {a : String} (h : ¬ a = "") (b : Option String) :
    pyOrStr (some a) b = some a := by
  simp [pyOrStr, h]

/-- Python truthy `or` on strings falls through on `None` and on the empty
string. -/
theorem pyOrStr_falsy {a b : Option String} (h : a = none ∨ a = some "") :
    pyOrStr a b = b := by
  rcases h with h | h <;> simp [h, pyOrStr]

/-- Python truthy `or` on integers keeps a nonzero left value. -/
theorem pyOrInt_truthy {n : Int} (h : ¬ n = 0) (b : Option Int) :
    pyOrInt (some n) b = some n := by
  simp [pyOrInt, h]

/-- Python truthy `or` on integers falls through on `None` and on `0`. -/
theorem pyOrInt_falsy {a b : Option Int} (h : a = none ∨ a = some 0) :
    pyOrInt a b = b := by
  rcases h with h | h <;> simp [h, pyOrInt]

/-- Country collection for the C4 counterexample: the lookup entry for KEN
carries region 1. -/
def countries4 : List CountryRecord :=
  [{ iso3 := "KEN", centroid := none, region := some 1, name := some "Kenya" }]

/-- Status record for the C4 counterexample: inline `country_details` with a
present, non-null region 3 and a present, non-null (but empty) name. -/
def status4 : StatusRecord :=
  { id := 1
    assessment := none
    assessment_number := none
    date_of_assessment := none
    country := none
    country_details := some { iso3 := some "KEN", name := some "", region := some 3 }
    phase := none
    phase_display := .absent
    type_of_assessment := none
    type_of_assessment_details := none
    updated_at := none }

/-- C4 counterexample: at this input the claim predicts the inline values
(region 3 and name the empty string, both present and non-null); the code
instead resolves region from the lookup (1, lookup-first precedence) and
name from the lookup (Kenya, because the inline empty string is falsy). -/
theorem C4_counterexample_inline_precedence :
    ¬ ((join_status countries4 [] [] [] [] status4).map JoinedRecord.region_id
        = Except.ok (some 3) ∧
       (join_status countries4 [] [] [] [] status4).map JoinedRecord.country_name
        = Except.ok (some "")) := by
  decide

/-- C4 (amended): for a joined record, `country_name` and `country_iso3`
take the inline `country_details` value exactly when it is present and
truthy (non-null and non-empty), falling back to the country lookup
otherwise; `region_id` is the Python-truthy `or` of the lookup region and
the inline region (lookup first); and latitude/longitude are split from the
country-lookup centroid only — an inline centroid is never consulted. -/
theorem C4_amended_country_resolution (countries : List CountryRecord)
    (prios : List PrioritizationRecord) (dashboards : List DashboardAssessment)
    (assessments : List ProcessedAssessment) (overviews : List OverviewRecord)
    (status : StatusRecord) (r : JoinedRecord)
    (h : join_status countries prios dashboards assessments overviews status = Except.ok r) :
    (∀ n, subOpt status.country_details CountryDetails.name = some n → n ≠ "" →
      r.country_name = some n) ∧
    ((subOpt status.country_details CountryDetails.name = none ∨
      subOpt status.country_details CountryDetails.name = some "") →
      r.country_name = (lookup_country countries (status_iso3 status)).name) ∧
    (∀ i, subOpt status.country_details CountryDetails.iso3 = some i → i ≠ "" →
      r.country_iso3 = some i) ∧
    ((subOpt status.country_details CountryDetails.iso3 = none ∨
      subOpt status.country_details CountryDetails.iso3 = some "") →
      r.country_iso3 = (lookup_country countries (status_iso3 status)).iso3) ∧
    (r.region_id = pyOrInt (lookup_country countries (status_iso3 status)).region
      (subOpt status.country_details CountryDetails.region)) ∧
    Except.ok (r.latitude, r.longitude)
      = split_centroid (lookup_country countries (status_iso3 status)).centroid := by
  obtain ⟨ll, hsc, hrec⟩ := join_status_ok h
  subst hrec
  refine ⟨?_, ?_, ?_, ?_, rfl, ?_⟩
  · intro n hn hne
    show pyOrStr (subOpt status.country_details CountryDetails.name)
      (lookup_country countries (status_iso3 status)).name = some n
    rw [hn]
    exact pyOrStr_truthy hne _
  · intro hn
    exact pyOrStr_falsy hn
  · intro i hi hne
    show pyOrStr (subOpt status.country_details CountryDetails.iso3)
      (lookup_country countries (status_iso3 status)).iso3 = some i
    rw [hi]
    exact pyOrStr_truthy hne _
  · intro hi
    exact pyOrStr_falsy hi
  · rw [hsc]
    show Except.ok (ll.1, ll.2) = Except.ok ll
    rw [Prod.mk.eta]

/-- Witness input for the amended C4: inline name present and non-empty,
inline region 3, lookup region 1. -/
def status4W : StatusRecord :=
  { id := 1
    assessment := none
    assessment_number := none
    date_of_assessment := none
    country := none
    country_details := some { iso3 := some "KEN", name := some "Inline", region := some 3 }
    phase := none
    phase_display := .absent
    type_of_assessment := none
    type_of_assessment_details := none
    updated_at := none }

/-- Witness for the amended C4 at a concrete input: the truthy inline name
wins and the truthy lookup region wins. -/
theorem C4_amended_country_resolution_witness :
    (join_record countries4 [] [] [] [] status4W (none, none)).country_name = some "Inline" ∧
    (join_record countries4 [] [] [] [] status4W (none, none)).region_id = some 1 := by
  have h := C4_amended_country_resolution countries4 [] [] [] [] status4W
    (join_record countries4 [] [] [] [] status4W (none, none)) rfl
  exact ⟨h.1 "Inline" rfl (by decide), (h.2.2.2.2.1).trans (by decide)⟩

/-- Country collection for the C5 counterexample: the lookup entry for KEN
carries region 0 (Africa). -/
def countries5 : List CountryRecord :=
  [{ iso3 := "KEN", centroid := none, region := some 0, name := some "Kenya" }]

/-- Status record for the C5 counterexample: inline region 3 competing with
the lookup region 0. -/
def status5 : StatusRecord :=
  { id := 1
    assessment := none
    assessment_number := none
    date_of_assessment := none
    country := none
    country_details := some { iso3 := some "KEN", name := none, region := some 3 }
    phase := none
    phase_display := .absent
    type_of_assessment := none
    type_of_assessment_details := none
    updated_at := none }

/-- C5 counterexample: the claim predicts that a lookup region of 0 wins
(region_id 0); the code treats 0 as falsy and falls through to the inline
region, producing region_id 3. -/
theorem C5_counterexample_region_zero :
    ¬ (join_status countries5 [] [] [] [] status5).map JoinedRecord.region_id
        = Except.ok (some 0) := by
  decide

/-- C5 (amended): `region_id` is resolved from the country lookup whenever
that entry carries a truthy (non-null, nonzero) region code; a lookup
region of null or 0 falls through to the inline `country_details.region`;
and `region_name` is the static region-table entry for `region_id` (absent
when the id is unmapped, since the table read is exactly
`region_id_to_name_map`). -/
theorem C5_amended_region_resolution (countries : List CountryRecord)
    (prios : List PrioritizationRecord) (dashboards : List DashboardAssessment)
    (assessments : List ProcessedAssessment) (overviews : List OverviewRecord)
    (status : StatusRecord) (r : JoinedRecord)
    (h : join_status countries prios dashboards assessments overviews status = Except.ok r) :
    (∀ k, (lookup_country countries (status_iso3 status)).region = some k → k ≠ 0 →
      r.region_id = some k) ∧
    (((lookup_country countries (status_iso3 status)).region = none ∨
      (lookup_country countries (status_iso3 status)).region = some 0) →
      r.region_id = subOpt status.country_details CountryDetails.region) ∧
    r.region_name = region_id_to_name_map r.region_id := by
  obtain ⟨ll, hsc, hrec⟩ := join_status_ok h
  subst hrec
  refine ⟨?_, ?_, rfl⟩
  · intro k hk hne
    show pyOrInt (lookup_country countries (status_iso3 status)).region
      (subOpt status.country_details CountryDetails.region) = some k
    rw [hk]
    exact pyOrInt_truthy hne _
  · intro hk
    exact pyOrInt_falsy hk

/-- Witness for the amended C5 at a concrete input: a lookup region of 0
falls through to the inline region 3, whose table entry is Europe. -/
theorem C5_amended_region_resolution_witness :
    (join_record countries5 [] [] [] [] status5 (none, none)).region_id = some 3 ∧
    (join_record countries5 [] [] [] [] status5 (none, none)).region_name = some "Europe" := by
  have h := C5_amended_region_resolution countries5 [] [] [] [] status5
    (join_record countries5 [] [] [] [] status5 (none, none)) rfl
  exact ⟨(h.2.1 (Or.inr rfl)).trans (by decide), by decide⟩

/-- Overview lookup on a status id with no matching overview record yields
the all-null default, exactly as with an empty overview collection. -/
theorem lookup_overview_miss {overviews : List OverviewRecord} {status_id : Int}
    (h : ∀ o ∈ overviews, o.id ≠ status_id) :
    lookup_overview overviews status_id = lookup_overview [] status_id := by
  unfold lookup_overview
  have hfind : List.find? (fun o => decide (o.id = status_id)) overviews.reverse = none := by
    rw [List.find?_eq_none]
    intro o ho
    simpa using h o (List.mem_reverse.mp ho)
  rw [hfind]
  rfl

/-- C9: when the overview collection is absent (modelled by the empty list
the code substitutes for a missing file) or contains no record whose id
equals the status id, the joiner behaves exactly as with no overview data —
no new error arises from the overview path — and any record it emits
carries null for all four assess fields of the country. -/
theorem C9_overview_defaults (countries : List CountryRecord)
    (prios : List PrioritizationRecord) (dashboards : List DashboardAssessment)
    (assessments : List ProcessedAssessment) (overviews : List OverviewRecord)
    (status : StatusRecord) (h : ∀ o ∈ overviews, o.id ≠ status.id) :
    join_status countries prios dashboards assessments overviews status
      = join_status countries prios dashboards assessments [] status ∧
    ∀ r, join_status countries prios dashboards assessments overviews status = Except.ok r →
      r.assess_preparedness_of_country = none ∧
      r.assess_urban_aspect_of_country = none ∧
      r.assess_climate_environment_of_country = none ∧
      r.assess_migration_aspect_of_country = none := by
  have hov := lookup_overview_miss h
  constructor
  · unfold join_status
    cases hsc : split_centroid (lookup_country countries (status_iso3 status)).centroid with
    | error e => rfl
    | ok ll =>
      simp only [join_record, hov]
  · intro r hr
    obtain ⟨ll, hsc, hrec⟩ := join_status_ok hr
    subst hrec
    refine ⟨?_, ?_, ?_, ?_⟩
    · show (lookup_overview overviews status.id).assess_preparedness_of_country = none
      rw [hov]
      rfl
    · show (lookup_overview overviews status.id).assess_urban_aspect_of_country = none
      rw [hov]
      rfl
    · show (lookup_overview overviews status.id).assess_climate_environment_of_country = none
      rw [hov]
      rfl
    · show (lookup_overview overviews status.id).assess_migration_aspect_of_country = none
      rw [hov]
      rfl

/-- Overview record for the C9 witness, with an id matching no status. -/
def overviewW : OverviewRecord :=
  { id := 5
    assess_preparedness_of_country := some true
    assess_urban_aspect_of_country := some true
    assess_climate_environment_of_country := some false
    assess_migration_aspect_of_country := some true }

/-- Witness for C9 at a concrete input: a status with id 1 against an
overview collection whose only record has id 5. -/
theorem C9_overview_defaults_witness :
    join_status [] [] [] [] [overviewW] statusBare = join_status [] [] [] [] [] statusBare ∧
    ((join_record [] [] [] [] [overviewW] statusBare (none, none)).assess_preparedness_of_country
        = none ∧
     (join_record [] [] [] [] [overviewW] statusBare (none, none)).assess_urban_aspect_of_country
        = none ∧
     (join_record [] [] [] [] [overviewW] statusBare
        (none, none)).assess_climate_environment_of_country = none ∧
     (join_record [] [] [] [] [overviewW] statusBare
        (none, none)).assess_migration_aspect_of_country = none) := by
  have h := C9_overview_defaults [] [] [] [] [overviewW] statusBare (by decide)
  exact ⟨h.1, h.2 (join_record [] [] [] [] [overviewW] statusBare (none, none)) rfl⟩

/-- Total number of assessment summaries held across a list of buckets. -/
def bucket_total (bs : List Bucket) : Nat :=
  (bs.map (fun b => b.assessments.length)).sum

/-- Appending one component summary grows the total summary count by exactly
one, whether it lands in an existing bucket or in a fresh one. -/
theorem add_component_summary_total (c : DashComponent) (s : BucketSummary)
    (bs : List Bucket) :
    bucket_total (add_component_summary c s bs) = bucket_total bs + 1 := by
  induction bs with
  | nil => simp [add_component_summary, bucket_total]
  | cons b bs ih =>
    by_cases hb : b.component_id = c.component_id
    · simp [add_component_summary, hb, bucket_total]
      omega
    · simp only [add_component_summary, hb, if_false, bucket_total, List.map_cons,
        List.sum_cons] at *
      omega

/-- Folding the component summaries of one record over the buckets grows the
total by the number of components. -/
theorem fold_components_total (r : JoinedRecord) (components : List DashComponent)
    (g : List Bucket) :
    bucket_total (components.foldl
        (fun g c => add_component_summary c (component_summary r c) g) g)
      = bucket_total g + components.length := by
  induction components generalizing g with
  | nil => simp
  | cons c cs ih =>
    rw [List.foldl_cons, ih, add_component_summary_total]
    simp only [List.length_cons]
    omega

/-- One grouping iteration grows the total summary count by
`max 1 (number of components)` of the record. -/
theorem group_step_total (g : List Bucket) (r : JoinedRecord) :
    bucket_total (group_step g r) = bucket_total g + max 1 r.components.length := by
  cases hcomp : r.components with
  | nil =>
    cases g with
    | nil => simp [group_step, hcomp, bucket_total, synthetic_bucket]
    | cons b bs =>
      simp [group_step, hcomp, bucket_total]
      omega
  | cons c cs =>
    have hg : group_step g r = (c :: cs).foldl
        (fun g2 cc => add_component_summary cc (component_summary r cc) g2) g := by
      simp [group_step, hcomp]
    rw [hg, fold_components_total]
    simp only [List.length_cons]
    omega

/-- C7: the total number of assessment summaries across all
grouped-by-component buckets equals the sum over all joined records of
`max 1 (number of dashboard components)` — every component occurrence
contributes one summary and every component-less record contributes one
empty summary. -/
theorem C7_grouping_count_law (records : List JoinedRecord) :
    ((group_by_component records).map (fun b => b.assessments.length)).sum
      = (records.map (fun r => max 1 r.components.length)).sum := by
  suffices h : ∀ g, bucket_total (records.foldl group_step g)
      = bucket_total g + (records.map (fun r => max 1 r.components.length)).sum by
    simpa [group_by_component, bucket_total] using h []
  induction records with
  | nil => intro g; simp
  | cons r rs ih =>
    intro g
    rw [List.foldl_cons, ih, group_step_total]
    simp
    omega

/-- Component ids of a list of buckets, in order. -/
def bucket_ids (bs : List Bucket) : List (Option Int) :=
  bs.map Bucket.component_id

/-- Appending one component summary either leaves the bucket id sequence
unchanged (a bucket matched) or appends the component id at the end (no
bucket matched). -/
theorem add_component_summary_ids (c : DashComponent) (s : BucketSummary)
    (bs : List Bucket) :
    bucket_ids (add_component_summary c s bs)
      = if c.component_id ∈ bucket_ids bs then bucket_ids bs
        else bucket_ids bs ++ [c.component_id] := by
  induction bs with
  | nil => simp [add_component_summary, bucket_ids]
  | cons b bs ih =>
    by_cases hb : b.component_id = c.component_id
    · simp [add_component_summary, hb, bucket_ids]
    · have hmem : (c.component_id ∈ bucket_ids (b :: bs))
          ↔ (c.component_id ∈ bucket_ids bs) := by
        simp only [bucket_ids, List.map_cons, List.mem_cons]
        constructor
        · intro hx
          rcases hx with h1 | h1
          · exact absurd h1.symm hb
          · exact h1
        · exact fun hx => Or.inr hx
      have hstep : bucket_ids (add_component_summary c s (b :: bs))
          = b.component_id :: bucket_ids (add_component_summary c s bs) := by
        simp [add_component_summary, hb, bucket_ids]
      by_cases hm : c.component_id ∈ bucket_ids bs
      · rw [if_pos (hmem.mpr hm), hstep, ih, if_pos hm]
        rfl
      · rw [if_neg (fun hx => hm (hmem.mp hx)), hstep, ih, if_neg hm]
        rfl

/-- Appending one component summary preserves distinctness of the bucket
ids, because a new bucket is only created when no existing bucket carries
the component id. -/
theorem add_component_summary_nodup (c : DashComponent) (s : BucketSummary)
    (bs : List Bucket) (h : (bucket_ids bs).Nodup) :
    (bucket_ids (add_component_summary c s bs)).Nodup := by
  rw [add_component_summary_ids]
  by_cases hm : c.component_id ∈ bucket_ids bs
  · rw [if_pos hm]
    exact h
  · rw [if_neg hm]
    simp [List.nodup_append, h, hm]

/-- Folding all component summaries of a record preserves bucket id
distinctness. -/
theorem fold_components_nodup (r : JoinedRecord) (components : List DashComponent)
    (g : List Bucket) (h : (bucket_ids g).Nodup) :
    (bucket_ids (components.foldl
        (fun g2 c => add_component_summary c (component_summary r c) g2) g)).Nodup := by
  induction components generalizing g with
  | nil => simpa
  | cons c cs ih => exact ih _ (add_component_summary_nodup _ _ _ h)

/-- One grouping iteration preserves bucket id distinctness. -/
theorem group_step_nodup (g : List Bucket) (r : JoinedRecord)
    (h : (bucket_ids g).Nodup) : (bucket_ids (group_step g r)).Nodup := by
  cases hcomp : r.components with
  | nil =>
    cases g with
    | nil =>
      have hg : group_step [] r = [synthetic_bucket r] := by
        simp [group_step, hcomp]
      rw [hg]
      simp [bucket_ids, synthetic_bucket]
    | cons b bs =>
      have hg : group_step (b :: bs) r =
          { b with assessments := b.assessments ++ [empty_summary r] } :: bs := by
        simp [group_step, hcomp]
      rw [hg]
      simpa [bucket_ids] using h
  | cons c cs =>
    have hg : group_step g r = (c :: cs).foldl
        (fun g2 cc => add_component_summary cc (component_summary r cc) g2) g := by
      simp [group_step, hcomp]
    rw [hg]
    exact fold_components_nodup r (c :: cs) g h

/-- C10: in the grouped-by-component output every bucket's `component_id`
is distinct from every other bucket's — buckets are matched by raw id
equality with null a key like any other, so no id (null included) ever
heads two buckets. -/
theorem C10_bucket_ids_distinct (records : List JoinedRecord) :
    ((group_by_component records).map Bucket.component_id).Nodup := by
  suffices h : ∀ g, (bucket_ids g).Nodup →
      (bucket_ids (records.foldl group_step g)).Nodup by
    simpa [group_by_component, bucket_ids] using h [] (by simp [bucket_ids])
  induction records with
  | nil => intro g hg; simpa
  | cons r rs ih =>
    intro g hg
    exact ih _ (group_step_nodup _ _ hg)

/-- Membership in an insertion step of the stable sort. -/
theorem mem_insert_sorted {x y : HistorySummary} {l : List HistorySummary} :
    y ∈ insert_sorted x l ↔ y = x ∨ y ∈ l := by
  induction l with
  | nil => simp [insert_sorted]
  | cons z zs ih =>
    by_cases h : date_lt z x <;> simp [insert_sorted, h, ih]
    tauto

/-- Inserting into a date-sorted list keeps it date-sorted. -/
theorem pairwise_insert_sorted {x : HistorySummary} {l : List HistorySummary}
    (h : l.Pairwise (fun a b => date_key a ≤ date_key b)) :
    (insert_sorted x l).Pairwise (fun a b => date_key a ≤ date_key b) := by
  induction l with
  | nil => simp [insert_sorted]
  | cons y ys ih =>
    rcases List.pairwise_cons.mp h with ⟨hy, hys⟩
    by_cases hlt : date_lt y x
    · have hyx : date_key y ≤ date_key x :=
        le_of_lt (by simpa [date_lt] using hlt)
      simp only [insert_sorted]
      rw [if_pos hlt]
      refine List.pairwise_cons.mpr ⟨?_, ih hys⟩
      intro z hz
      rcases mem_insert_sorted.mp hz with h1 | h1
      · rw [h1]
        exact hyx
      · exact hy z h1
    · have hxy : date_key x ≤ date_key y := by
        have hnl : ¬ date_key y < date_key x := by simpa [date_lt] using hlt
        exact le_of_not_lt hnl
      simp only [insert_sorted]
      rw [if_neg hlt]
      refine List.pairwise_cons.mpr ⟨?_, h⟩
      intro z hz
      rcases List.mem_cons.mp hz with h1 | h1
      · rw [h1]
        exact hxy
      · exact le_trans hxy (hy z h1)

/-- Filtering a fixed date class commutes with one insertion step: the
inserted element lands at the front of its own date class and every other
class is untouched, which is exactly stability. -/
theorem filter_insert_sorted (x : HistorySummary) (l : List HistorySummary) (k : List Char) :
    (insert_sorted x l).filter (fun s => date_key s = k)
      = if date_key x = k then x :: l.filter (fun s => date_key s = k)
        else l.filter (fun s => date_key s = k) := by
  induction l with
  | nil =>
    by_cases h : date_key x = k <;> simp [insert_sorted, h]
  | cons y ys ih =>
    by_cases hlt : date_lt y x
    · have hne : date_key y ≠ date_key x := ne_of_lt (by simpa [date_lt] using hlt)
      simp only [insert_sorted]
      rw [if_pos hlt]
      by_cases hy : date_key y = k
      · have hx : ¬ date_key x = k := fun hx => hne (hy.trans hx.symm)
        simp [List.filter_cons, hy, hx, ih]
      · simp [List.filter_cons, hy, ih]
    · simp only [insert_sorted]
      rw [if_neg hlt]
      by_cases hx : date_key x = k <;> simp [List.filter_cons, hx]

/-- The stable sort produces a date-sorted list. -/
theorem pairwise_stable_sort (l : List HistorySummary) :
    (stable_sort_by_date l).Pairwise (fun a b => date_key a ≤ date_key b) := by
  induction l with
  | nil => simp [stable_sort_by_date]
  | cons x xs ih => exact pairwise_insert_sorted ih

/-- The stable sort leaves every date class in its original relative
order. -/
theorem filter_stable_sort (l : List HistorySummary) (k : List Char) :
    (stable_sort_by_date l).filter (fun s => date_key s = k)
      = l.filter (fun s => date_key s = k) := by
  induction l with
  | nil => rfl
  | cons x xs ih =>
    show (insert_sorted x (stable_sort_by_date xs)).filter (fun s => date_key s = k)
      = (x :: xs).filter (fun s => date_key s = k)
    rw [filter_insert_sorted]
    by_cases hx : date_key x = k <;> simp [List.filter_cons, hx, ih]

/-- C8: in the country-history output every country's summary sequence is
non-decreasing by date string (a missing or null date reading as the empty
string, which sorts first), and within each date class the original
encounter order of the grouped summaries is preserved (stable sort). -/
theorem C8_history_sort_law (records : List JoinedRecord) (c : Option String)
    (l : List HistorySummary) (h : (c, l) ∈ country_history records) :
    l.Pairwise (fun a b => date_key a ≤ date_key b) ∧
    ∃ g, (c, g) ∈ country_groups records ∧
      ∀ k, l.filter (fun s => date_key s = k) = g.filter (fun s => date_key s = k) := by
  unfold country_history at h
  rcases List.mem_map.mp h with ⟨p, hp, heq⟩
  have h1 : p.1 = c := congrArg Prod.fst heq
  have h2 : stable_sort_by_date p.2 = l := congrArg Prod.snd heq
  subst h1
  subst h2
  refine ⟨pairwise_stable_sort p.2, ⟨p.2, ?_, fun k => filter_stable_sort p.2 k⟩⟩
  simpa using hp

/-- First status for the C8 witness: latest date. -/
def statusHW1 : StatusRecord :=
  { id := 1
    assessment := none
    assessment_number := some 1
    date_of_assessment := some "2024-05-01"
    country := none
    country_details := some { iso3 := none, name := some "Kenya", region := none }
    phase := none
    phase_display := .absent
    type_of_assessment := none
    type_of_assessment_details := none
    updated_at := none }

/-- Second status for the C8 witness: earlier date. -/
def statusHW2 : StatusRecord :=
  { statusHW1 with
    id := 2
    assessment_number := some 2
    date_of_assessment := some "2023-01-01" }

/-- Third status for the C8 witness: same date as the second, later in
encounter order. -/
def statusHW3 : StatusRecord :=
  { statusHW1 with
    id := 3
    assessment_number := some 3
    date_of_assessment := some "2023-01-01" }

/-- Joined records for the C8 witness, all for the same country. -/
def recsHW : List JoinedRecord :=
  [join_record [] [] [] [] [] statusHW1 (none, none),
   join_record [] [] [] [] [] statusHW2 (none, none),
   join_record [] [] [] [] [] statusHW3 (none, none)]

/-- Encounter-order history group of the C8 witness records. -/
def groupHW : List HistorySummary :=
  [history_summary (join_record [] [] [] [] [] statusHW1 (none, none)),
   history_summary (join_record [] [] [] [] [] statusHW2 (none, none)),
   history_summary (join_record [] [] [] [] [] statusHW3 (none, none))]

/-- Witness for C8 at a concrete input with an out-of-order date and a
date tie. -/
theorem C8_history_sort_law_witness :
    (stable_sort_by_date groupHW).Pairwise (fun a b => date_key a ≤ date_key b) ∧
    (stable_sort_by_date groupHW).filter (fun s => date_key s = "2023-01-01".data)
      = groupHW.filter (fun s => date_key s = "2023-01-01".data) := by
  have h := C8_history_sort_law recsHW (some "Kenya") (stable_sort_by_date groupHW)
    (by decide)
  rcases h with ⟨hs, g, hg, hf⟩
  have hcg : country_groups recsHW = [((some "Kenya" : Option String), groupHW)] := by
    decide
  rw [hcg] at hg
  simp only [List.mem_singleton, Prod.mk.injEq] at hg
  rw [hg.2] at hf
  exact ⟨hs, hf "2023-01-01".data⟩
